import Mathlib

/-!
Verification of the browser client in src/static/js/app.js (schedule-to-calendar).

The source file holds two variants of the same client, separated by a document
marker: variant 1 (lines 1-236) and variant 2 (lines 236-367).  Both wire DOM
events to two fetch calls.  This development gives a shallow embedding of the
claim-relevant parts: the DOM pieces the handlers touch become fields of a
`ClientState` record, each promise chain becomes a pure state-to-state
function (a throw inside a then-callback runs the catch-callback on the state
left by the partial execution), and the asynchronous requests become explicit
in-flight counters consumed by response events.  Browser downloads and object
URLs are recorded in an append-only effect log.  A small-step event machine
`step`/`run` models reachable UI states; an event whose DOM precondition fails
(a click on a hidden or disabled element, a response with no matching request)
leaves the state unchanged.
-/

/-- One alert in the single-slot alert container (showAlert replaces any prior
alert: it clears alertContainer.innerHTML before appending). -/
structure Alert where
  message : String
  severity : String
deriving DecidableEq, Repr

/-- Effects the generate-calendar success handler performs on the browser:
URL.createObjectURL, the programmatic anchor click that triggers the download,
and URL.revokeObjectURL.  Object URLs are identified by a counter. -/
inductive Effect where
  | createURL (id : Nat)
  | download (filename : String) (id : Nat)
  | revokeURL (id : Nat)
deriving DecidableEq, Repr

/-- The DOM and session state the two variants of app.js read and write.
Visibility flags mirror the d-none class on the three sections (a section is
visible iff d-none is absent).  `options` is the list of option values of the
employee select, in order; replacing innerHTML selects the first option, so
`selectedValue` is then the empty placeholder value.  `uploadsInFlight` and
`generatesInFlight` count the fetch calls whose promise chain has not yet run;
a generate request captures the employee string in its closure, so the list
keeps one entry per request.  The initial values of the flags come from the
page markup, which is not under src/ and is modelled from the spec: the upload
view is initial and the generate button starts disabled. -/
structure ClientState where
  loadingVisible : Bool
  uploadVisible : Bool
  employeeVisible : Bool
  options : List String
  selectedValue : String
  generateDisabled : Bool
  fileInputValue : String
  alert : Option Alert
  uploadsInFlight : Nat
  generatesInFlight : List String
  nextUrl : Nat
  effects : List Effect
deriving DecidableEq, Repr

/-- JSON body of an /upload response as the client reads it: data.error and
data.employees, each possibly absent. -/
structure UploadBody where
  error : Option String
  employees : Option (List String)
deriving DecidableEq, Repr

/-- An /upload HTTP response: its status (response.ok) and parsed JSON body.
The upload promise chain never reads response.ok. -/
structure UploadResponse where
  ok : Bool
  body : UploadBody
deriving DecidableEq, Repr

/-- A /generate-calendar HTTP response: response.ok, and the data.error field
of the JSON body the failure path parses.  The success body is an opaque blob
and needs no representation. -/
structure GenResponse where
  ok : Bool
  error : Option String
deriving DecidableEq, Repr

/-- String.prototype.endsWith of JavaScript: a plain code-unit suffix test,
with no case folding. -/
def jsEndsWith (s suffix : String) : Bool :=
  decide (suffix.data <:+ s.data)

/-- Character-wise lowercasing of a string, used only to state case-insensitive
hypotheses about file names. -/
def lowerName (s : String) : String :=
  ⟨s.data.map Char.toLower⟩

/-- The validation test of handleFile in both variants:
file.name.endsWith(".xlsx"). -/
def xlsxOk (name : String) : Bool :=
  jsEndsWith name ".xlsx"

def invalidFileMsg : String := "Please upload an Excel (.xlsx) file"

/-- Message text of the TypeError raised when data.employees is absent and the
success path reads .forEach on undefined; the exact wording is
browser-dependent, modelled here as a fixed string distinct from any message in
app.js. -/
def typeErrorMsg : String := "Cannot read properties of undefined (reading forEach)"

def genFallbackMsg : String := "Failed to generate calendar"

def uploadSuccessMsgV1 : String := "File uploaded successfully! Please select an employee."

def uploadSuccessMsgV2 : String := "File uploaded successfully!"

def genSuccessMsgV1 : String := "Calendar generated and downloaded successfully!"

/-- showAlert (both variants): build an alert and replace the contents of the
single alert container. -/
def showAlert (message severity : String) (s : ClientState) : ClientState :=
  { s with alert := some ⟨message, severity⟩ }

/-- setLoading of variant 1 (lines 118-124): toggle d-none on the loading
indicator to (not loading) and on the upload area to loading, and clear the
file input value when loading completes. -/
def setLoadingV1 (loading : Bool) (s : ClientState) : ClientState :=
  let s1 := { s with loadingVisible := loading, uploadVisible := !loading }
  if loading then s1 else { s1 with fileInputValue := "" }

/-- setLoading of variant 2 (lines 258-261): the same two class toggles, with
no file-input reset. -/
def setLoadingV2 (loading : Bool) (s : ClientState) : ClientState :=
  { s with loadingVisible := loading, uploadVisible := !loading }

/-- handleFile of variant 1 (lines 151-192) up to the point the fetch is
issued: return on a missing file, reject a name that does not pass
endsWith(".xlsx") with an alert, otherwise enter loading, hide the employee
section and issue the upload request (counted in uploadsInFlight). -/
def handleFileV1 (file : Option String) (s : ClientState) : ClientState :=
  match file with
  | none => s
  | some name =>
    if xlsxOk name then
      let s1 := setLoadingV1 true s
      let s2 := { s1 with employeeVisible := false }
      { s2 with uploadsInFlight := s2.uploadsInFlight + 1 }
    else
      showAlert invalidFileMsg "danger" s

/-- handleFile of variant 2 (lines 284-324) up to the fetch: as variant 1 but
with setLoadingV2 and without hiding the employee section. -/
def handleFileV2 (file : Option String) (s : ClientState) : ClientState :=
  match file with
  | none => s
  | some name =>
    if xlsxOk name then
      let s1 := setLoadingV2 true s
      { s1 with uploadsInFlight := s1.uploadsInFlight + 1 }
    else
      showAlert invalidFileMsg "danger" s

/-- The /upload promise chain of variant 1 (lines 168-191), run when the
response JSON arrives.  The then-callback calls setLoading(false) first; a
data.error field is thrown and reaches the catch-callback, which calls
setLoading(false) again and shows the message.  Otherwise the select is reset
to the single placeholder option (innerHTML assignment, which also resets the
selection to the first option, of empty value); reading data.employees.forEach
with employees absent throws a TypeError caught by the same catch-callback;
with employees present one option per employee is appended, the employee
section is shown and a success alert is displayed.  Nothing in the chain reads
the HTTP status, and nothing writes generateDisabled. -/
def uploadRespond (data : UploadBody) (s : ClientState) : ClientState :=
  let s1 := setLoadingV1 false s
  match data.error with
  | some e => showAlert e "danger" (setLoadingV1 false s1)
  | none =>
    let s2 := { s1 with options := [""], selectedValue := "" }
    match data.employees with
    | none => showAlert typeErrorMsg "danger" (setLoadingV1 false s2)
    | some es =>
      let s3 := { s2 with options := "" :: es }
      let s4 := { s3 with employeeVisible := true }
      showAlert uploadSuccessMsgV1 "success" s4

/-- The /upload promise chain of variant 2 (lines 300-323): identical to
variant 1 except that setLoadingV2 is in scope and the success message is
shorter. -/
def uploadRespondV2 (data : UploadBody) (s : ClientState) : ClientState :=
  let s1 := setLoadingV2 false s
  match data.error with
  | some e => showAlert e "danger" (setLoadingV2 false s1)
  | none =>
    let s2 := { s1 with options := [""], selectedValue := "" }
    match data.employees with
    | none => showAlert typeErrorMsg "danger" (setLoadingV2 false s2)
    | some es =>
      let s3 := { s2 with options := "" :: es }
      let s4 := { s3 with employeeVisible := true }
      showAlert uploadSuccessMsgV2 "success" s4

/-- The full /upload response processing: the chain starts with
response.json() and every later step sees only the parsed body, so the status
is dropped on the floor. -/
def processUploadResponse (r : UploadResponse) (s : ClientState) : ClientState :=
  uploadRespond r.body s

/-- Download filename built by the generate success handler (template literal,
both variants): the employee string verbatim followed by the suffix. -/
def downloadName (employee : String) : String :=
  employee ++ "_schedule.ics"

/-- The /generate-calendar promise chain (lines 212-235 and 344-367), run when
the response for the captured employee arrives.  On response.ok: setLoading
false, create an object URL, trigger exactly one anchor-click download named by
downloadName, revoke the same URL, and show a success alert.  Otherwise the
thrown message is data.error when present, else the generic fallback; the
catch-callback calls setLoading(false) and shows it.  The employee section is
never touched. -/
def genRespond (employee : String) (r : GenResponse) (s : ClientState) : ClientState :=
  if r.ok then
    let s1 := setLoadingV1 false s
    let u := s1.nextUrl
    let s2 := { s1 with
      nextUrl := u + 1,
      effects := s1.effects ++
        [Effect.createURL u, Effect.download (downloadName employee) u, Effect.revokeURL u] }
    showAlert genSuccessMsgV1 "success" s2
  else
    showAlert (r.error.getD genFallbackMsg) "danger" (setLoadingV1 false s)

/-- The generateButton click listener (lines 198-211) up to the fetch: no-op
on the empty placeholder value, otherwise enter loading and issue the request,
capturing the selected employee.  The listener performs no check of the
loading state. -/
def generateClickV1 (s : ClientState) : ClientState :=
  if s.selectedValue = "" then s
  else
    let s1 := setLoadingV1 true s
    { s1 with generatesInFlight := s1.generatesInFlight ++ [s1.selectedValue] }

/-- User and network events driving the variant-1 client.  File submission
covers both the drop handler and the file-input change handler, which call the
same handleFile. -/
inductive Event where
  | fileChosen (file : Option String)
  | uploadResponse (body : UploadBody)
  | selectChange (v : String)
  | generateClick
  | generateResponse (employee : String) (r : GenResponse)

/-- One step of the variant-1 client.  DOM preconditions gate the user events:
a file can only be submitted through the upload area while it is visible, a
change event needs the select visible and the value among its options, a click
needs the generate button visible and enabled.  A response event fires only
when a matching request is in flight.  The select-change listener (lines
194-196) sets generateDisabled to the emptiness of the selected value. -/
def step (e : Event) (s : ClientState) : ClientState :=
  match e with
  | .fileChosen file =>
    if s.uploadVisible then handleFileV1 file s else s
  | .uploadResponse body =>
    if s.uploadsInFlight = 0 then s
    else uploadRespond body { s with uploadsInFlight := s.uploadsInFlight - 1 }
  | .selectChange v =>
    if s.employeeVisible && s.options.contains v then
      { s with selectedValue := v, generateDisabled := (v == "") }
    else s
  | .generateClick =>
    if s.employeeVisible && !s.generateDisabled then generateClickV1 s else s
  | .generateResponse employee r =>
    if s.generatesInFlight.contains employee then
      genRespond employee r { s with generatesInFlight := s.generatesInFlight.erase employee }
    else s

/-- Initial page state.  Modelled from the spec for the markup not under src/:
the upload view is the initial view, the loading indicator and employee
section start hidden, the select holds the single placeholder option and the
generate button starts disabled. -/
def init : ClientState :=
  { loadingVisible := false
    uploadVisible := true
    employeeVisible := false
    options := [""]
    selectedValue := ""
    generateDisabled := true
    fileInputValue := ""
    alert := none
    uploadsInFlight := 0
    generatesInFlight := []
    nextUrl := 0
    effects := [] }

def runFrom (s : ClientState) (evs : List Event) : ClientState :=
  evs.foldl (fun t e => step e t) s

/-- The state of the variant-1 client after a sequence of events from page
load; reachable states are exactly the values of run. -/
def run (evs : List Event) : ClientState :=
  runFrom init evs

/-- Modelled from the spec: neither variant of app.js contains a restart
handler, and the page markup is not under src/, so the explicit restart action
of the spec (any state to upload: clear selection list, disable generate,
clear file input, clear messages) is modelled from its words. -/
def restart (s : ClientState) : ClientState :=
  { s with
    loadingVisible := false
    uploadVisible := true
    employeeVisible := false
    options := [""]
    selectedValue := ""
    generateDisabled := true
    fileInputValue := ""
    alert := none }

/-- Object URL ids created so far, in order. -/
def createdIds (effs : List Effect) : List Nat :=
  effs.filterMap fun e =>
    match e with
    | .createURL n => some n
    | _ => none

/-- Object URL ids revoked so far, in order. -/
def revokedIds (effs : List Effect) : List Nat :=
  effs.filterMap fun e =>
    match e with
    | .revokeURL n => some n
    | _ => none

/-- Number of downloads triggered in an effect log. -/
def downloadCount (effs : List Effect) : Nat :=
  (effs.filter fun e =>
    match e with
    | .download _ _ => true
    | _ => false).length

/-- Event trace: upload, select Alice, then upload again. -/
def c2trace : List Event :=
  [Event.fileChosen (some "a.xlsx"), Event.uploadResponse ⟨none, some ["Alice"]⟩,
   Event.selectChange "Alice", Event.fileChosen (some "b.xlsx"),
   Event.uploadResponse ⟨none, some ["Alice"]⟩]

/-- Event trace: full flow ending in a successful generation for Bob Lee. -/
def c5trace : List Event :=
  [Event.fileChosen (some "roster.xlsx"), Event.uploadResponse ⟨none, some ["Bob Lee"]⟩,
   Event.selectChange "Bob Lee", Event.generateClick,
   Event.generateResponse "Bob Lee" ⟨true, none⟩]

/-- Event trace: one successful upload. -/
def c6trace : List Event :=
  [Event.fileChosen (some "roster.xlsx"), Event.uploadResponse ⟨none, some ["Alice"]⟩]

/-- Event trace: upload, select, then two generate clicks with no response in
between. -/
def c7trace : List Event :=
  [Event.fileChosen (some "roster.xlsx"), Event.uploadResponse ⟨none, some ["Alice"]⟩,
   Event.selectChange "Alice", Event.generateClick, Event.generateClick]

/-- Event trace: full flow ending in a successful generation for Alice. -/
def c8trace : List Event :=
  [Event.fileChosen (some "roster.xlsx"), Event.uploadResponse ⟨none, some ["Alice"]⟩,
   Event.selectChange "Alice", Event.generateClick,
   Event.generateResponse "Alice" ⟨true, none⟩]

lemma xlsxOk_eq_false_of_lower (name : String)
    (h : jsEndsWith (lowerName name) ".xlsx" = false) : xlsxOk name = false := by
  cases hx : xlsxOk name with
  | false => rfl
  | true =>
    exfalso
    have hsuf : ".xlsx".data <:+ name.data := by
      have := hx
      simp only [xlsxOk, jsEndsWith, decide_eq_true_eq] at this
      exact this
    obtain ⟨t, ht⟩ := hsuf
    have hmap : (".xlsx".data.map Char.toLower) <:+ (name.data.map Char.toLower) :=
      ⟨t.map Char.toLower, by rw [← List.map_append, ht]⟩
    have hfix : (".xlsx".data.map Char.toLower) = ".xlsx".data := by decide
    rw [hfix] at hmap
    have htrue : jsEndsWith (lowerName name) ".xlsx" = true := by
      simp only [jsEndsWith, lowerName, decide_eq_true_eq]
      exact hmap
    rw [htrue] at h
    cases h

/-- C1: a submitted file whose name does not end in .xlsx even after
lowercasing makes handleFile of both variants display the validation alert
and change nothing else: no upload request is issued, no effect is performed,
and the view stays on upload. -/
theorem c1_invalid_extension_rejected (name : String) (s : ClientState)
    (hlower : jsEndsWith (lowerName name) ".xlsx" = false)
    (hview : s.uploadVisible = true) :
    handleFileV1 (some name) s = { s with alert := some ⟨invalidFileMsg, "danger"⟩ } ∧
    handleFileV2 (some name) s = { s with alert := some ⟨invalidFileMsg, "danger"⟩ } ∧
    (handleFileV1 (some name) s).uploadsInFlight = s.uploadsInFlight ∧
    (handleFileV1 (some name) s).effects = s.effects ∧
    (handleFileV1 (some name) s).uploadVisible = true ∧
    (handleFileV1 (some name) s).loadingVisible = s.loadingVisible := by
  have hx : xlsxOk name = false := xlsxOk_eq_false_of_lower name hlower
  refine ⟨?_, ?_, ?_, ?_, ?_, ?_⟩ <;>
    simp [handleFileV1, handleFileV2, hx, showAlert, hview]

/-- Witness for C1: the concrete file schedule.txt submitted in the initial
state. -/
theorem c1_witness :
    jsEndsWith (lowerName "schedule.txt") ".xlsx" = false ∧
    init.uploadVisible = true ∧
    handleFileV1 (some "schedule.txt") init =
      { init with alert := some ⟨invalidFileMsg, "danger"⟩ } :=
  ⟨by decide, rfl,
    (c1_invalid_extension_rejected "schedule.txt" init (by decide) rfl).1⟩

/-- C2 amended: a successful upload with N employees leaves the select with
exactly N+1 option values, the empty placeholder first and selected; the
disabled state of the generate button is written only by the select change
listener, where it is true exactly for the placeholder value, while
repopulation leaves the previous disabled state in place. -/
theorem c2_amended_options_and_gating :
    (∀ (data : UploadBody) (es : List String) (s : ClientState),
      data.error = none → data.employees = some es →
      (uploadRespond data s).options = "" :: es ∧
      (uploadRespond data s).options.length = es.length + 1 ∧
      (uploadRespond data s).selectedValue = "" ∧
      (uploadRespond data s).generateDisabled = s.generateDisabled) ∧
    (∀ (v : String) (s : ClientState),
      s.employeeVisible = true → s.options.contains v = true →
      ((step (Event.selectChange v) s).generateDisabled = true ↔ v = "")) := by
  constructor
  · intro data es s he hemp
    simp [uploadRespond, he, hemp, setLoadingV1, showAlert]
  · intro v s hvis hmem
    have hmem2 : v ∈ s.options := by simpa using hmem
    simp [step, hvis, hmem2]

/-- Witness for C2: upload response with one employee from the initial state,
and a change event selecting Alice in a state where the select lists her. -/
theorem c2_witness :
    ((uploadRespond ⟨none, some ["Alice"]⟩ init).options = "" :: ["Alice"] ∧
      (uploadRespond ⟨none, some ["Alice"]⟩ init).options.length = ["Alice"].length + 1 ∧
      (uploadRespond ⟨none, some ["Alice"]⟩ init).selectedValue = "" ∧
      (uploadRespond ⟨none, some ["Alice"]⟩ init).generateDisabled = init.generateDisabled) ∧
    ((step (Event.selectChange "Alice")
        { init with employeeVisible := true, options := ["", "Alice"] }).generateDisabled = true ↔
      "Alice" = "") :=
  ⟨c2_amended_options_and_gating.1 ⟨none, some ["Alice"]⟩ ["Alice"] init rfl rfl,
    c2_amended_options_and_gating.2 "Alice"
      { init with employeeVisible := true, options := ["", "Alice"] } rfl (by decide)⟩

/-- Counterexample for C2 as stated: after a second successful upload the
placeholder is selected yet the generate button is still enabled, because
repopulating the select never updates the disabled flag. -/
theorem c2_counterexample_enabled_on_placeholder :
    (run c2trace).selectedValue = "" ∧ (run c2trace).generateDisabled = false := by decide

/-- C3 amended: the upload promise chain never reads the HTTP status; a JSON
body with an error field gets its message displayed, and when both the error
and the employees fields are absent the displayed message is the TypeError
text from reading forEach of undefined, not a generic upload-failed fallback;
in variant 1 the employee section, hidden when the request was issued, stays
hidden and the upload view returns. -/
theorem c3_amended_error_display (r : UploadResponse) (s : ClientState)
    (hsec : s.employeeVisible = false) :
    (∀ e, r.body.error = some e →
      (processUploadResponse r s).alert = some ⟨e, "danger"⟩ ∧
      (processUploadResponse r s).uploadVisible = true ∧
      (processUploadResponse r s).loadingVisible = false ∧
      (processUploadResponse r s).employeeVisible = false) ∧
    (r.body.error = none → r.body.employees = none →
      (processUploadResponse r s).alert = some ⟨typeErrorMsg, "danger"⟩ ∧
      (processUploadResponse r s).uploadVisible = true ∧
      (processUploadResponse r s).loadingVisible = false ∧
      (processUploadResponse r s).employeeVisible = false) ∧
    (∀ b : Bool, processUploadResponse ⟨b, r.body⟩ s = processUploadResponse r s) := by
  refine ⟨?_, ?_, fun b => rfl⟩
  · intro e he
    simp [processUploadResponse, uploadRespond, he, setLoadingV1, showAlert, hsec]
  · intro he hemp
    simp [processUploadResponse, uploadRespond, he, hemp, setLoadingV1, showAlert, hsec]

/-- Witness for C3: a 4xx-style response whose body carries an error field,
processed from the initial state. -/
theorem c3_witness :
    (processUploadResponse ⟨false, ⟨some "Bad file", none⟩⟩ init).alert =
      some ⟨"Bad file", "danger"⟩ ∧
    (processUploadResponse ⟨false, ⟨some "Bad file", none⟩⟩ init).uploadVisible = true ∧
    (processUploadResponse ⟨false, ⟨some "Bad file", none⟩⟩ init).loadingVisible = false ∧
    (processUploadResponse ⟨false, ⟨some "Bad file", none⟩⟩ init).employeeVisible = false :=
  (c3_amended_error_display ⟨false, ⟨some "Bad file", none⟩⟩ init rfl).1 "Bad file" rfl

/-- Counterexample for C3 as stated: a non-2xx response whose JSON body has no
error field does not produce a generic upload-failed message; the displayed
text is the TypeError message. -/
theorem c3_counterexample_no_generic_fallback :
    (processUploadResponse ⟨false, ⟨none, none⟩⟩ init).alert =
      some ⟨typeErrorMsg, "danger"⟩ ∧
    typeErrorMsg ≠ "Upload failed" ∧ typeErrorMsg ≠ "upload failed" ∧
    typeErrorMsg ≠ "Failed to upload" := by decide

/-- C4: a failed generation response displays the error field of the JSON
body, falling back to the generic message when the field is absent, performs
no download effect, and leaves the client on the selection view with the
loading indicator hidden. -/
theorem c4_generate_error_display (employee : String) (r : GenResponse) (s : ClientState)
    (hok : r.ok = false) (hsel : s.employeeVisible = true) :
    (genRespond employee r s).alert = some ⟨r.error.getD genFallbackMsg, "danger"⟩ ∧
    (genRespond employee r s).employeeVisible = true ∧
    (genRespond employee r s).loadingVisible = false ∧
    (genRespond employee r s).effects = s.effects := by
  simp [genRespond, hok, setLoadingV1, showAlert, hsel]

/-- Witness for C4: a concrete failed generation, once with an error field and
implicitly exercising the getD fallback shape. -/
theorem c4_witness :
    (genRespond "Alice" ⟨false, some "No schedule"⟩
      { init with employeeVisible := true }).alert =
      some ⟨(some "No schedule" : Option String).getD genFallbackMsg, "danger"⟩ ∧
    (genRespond "Alice" ⟨false, some "No schedule"⟩
      { init with employeeVisible := true }).employeeVisible = true ∧
    (genRespond "Alice" ⟨false, some "No schedule"⟩
      { init with employeeVisible := true }).loadingVisible = false ∧
    (genRespond "Alice" ⟨false, some "No schedule"⟩
      { init with employeeVisible := true }).effects =
      ({ init with employeeVisible := true } : ClientState).effects :=
  c4_generate_error_display "Alice" ⟨false, some "No schedule"⟩
    { init with employeeVisible := true } rfl rfl

/-- C5 amended: the download filename of a successful generation is the
employee string verbatim, with no character replaced or stripped, followed by
the suffix, as recorded in the download effect of the success handler. -/
theorem c5_amended_filename_verbatim (employee : String) (r : GenResponse) (s : ClientState)
    (hok : r.ok = true) :
    downloadName employee = employee ++ "_schedule.ics" ∧
    (genRespond employee r s).effects =
      s.effects ++ [Effect.createURL s.nextUrl,
        Effect.download (employee ++ "_schedule.ics") s.nextUrl,
        Effect.revokeURL s.nextUrl] := by
  refine ⟨rfl, ?_⟩
  simp [genRespond, hok, setLoadingV1, showAlert, downloadName]

/-- Witness for C5: the successful generation for Bob Lee from the initial
state. -/
theorem c5_witness :
    downloadName "Bob Lee" = "Bob Lee" ++ "_schedule.ics" ∧
    (genRespond "Bob Lee" ⟨true, none⟩ init).effects =
      init.effects ++ [Effect.createURL init.nextUrl,
        Effect.download ("Bob Lee" ++ "_schedule.ics") init.nextUrl,
        Effect.revokeURL init.nextUrl] :=
  c5_amended_filename_verbatim "Bob Lee" ⟨true, none⟩ init rfl

/-- Counterexample for C5 as stated: a full flow for the employee Bob Lee ends
in a download named with the space kept, so non-alphanumeric characters are
neither replaced nor stripped. -/
theorem c5_counterexample_unsanitized :
    Effect.download "Bob Lee_schedule.ics" 0 ∈ (run c5trace).effects ∧
    "Bob Lee_schedule.ics" ≠ "Bob_Lee_schedule.ics" ∧
    "Bob Lee_schedule.ics" ≠ "BobLee_schedule.ics" ∧
    ("Bob Lee".data.any fun c => !c.isAlphanum) = true := by decide

/-- Complementarity of the loading indicator and the upload area: the two are
always toggled together by setLoading. -/
def LoadInv (s : ClientState) : Prop :=
  s.loadingVisible = !s.uploadVisible

lemma loadInv_setLoadingV1 (l : Bool) (s : ClientState) : LoadInv (setLoadingV1 l s) := by
  cases l <;> simp [LoadInv, setLoadingV1]

lemma loadInv_handleFileV1 (f : Option String) (s : ClientState) (h : LoadInv s) :
    LoadInv (handleFileV1 f s) := by
  cases f with
  | none => exact h
  | some name =>
    cases hx : xlsxOk name
    · simpa [handleFileV1, hx, showAlert, LoadInv] using h
    · simp [handleFileV1, hx, setLoadingV1, LoadInv]

lemma loadInv_uploadRespond (data : UploadBody) (s : ClientState) :
    LoadInv (uploadRespond data s) := by
  unfold uploadRespond
  cases data.error with
  | some e => simp [setLoadingV1, showAlert, LoadInv]
  | none =>
    cases data.employees with
    | none => simp [setLoadingV1, showAlert, LoadInv]
    | some es => simp [setLoadingV1, showAlert, LoadInv]

lemma loadInv_genRespond (employee : String) (r : GenResponse) (s : ClientState) :
    LoadInv (genRespond employee r s) := by
  unfold genRespond
  cases hok : r.ok <;> simp [hok, setLoadingV1, showAlert, LoadInv]

lemma loadInv_generateClickV1 (s : ClientState) (h : LoadInv s) :
    LoadInv (generateClickV1 s) := by
  unfold generateClickV1
  split
  · exact h
  · simp [setLoadingV1, LoadInv]

lemma loadInv_step (e : Event) (s : ClientState) (h : LoadInv s) : LoadInv (step e s) := by
  cases e with
  | fileChosen f =>
    simp only [step]
    split
    · exact loadInv_handleFileV1 f s h
    · exact h
  | uploadResponse body =>
    simp only [step]
    split
    · exact h
    · exact loadInv_uploadRespond body _
  | selectChange v =>
    simp only [step]
    split
    · simpa [LoadInv] using h
    · exact h
  | generateClick =>
    simp only [step]
    split
    · exact loadInv_generateClickV1 s h
    · exact h
  | generateResponse employee r =>
    simp only [step]
    split
    · exact loadInv_genRespond employee r _
    · exact h

lemma loadInv_runFrom (evs : List Event) :
    ∀ s : ClientState, LoadInv s → LoadInv (runFrom s evs) := by
  induction evs with
  | nil => intro s h; exact h
  | cons e tail ih =>
    intro s h
    exact ih (step e s) (loadInv_step e s h)

lemma loadInv_run (evs : List Event) : LoadInv (run evs) :=
  loadInv_runFrom evs init rfl

/-- C6 amended: in every reachable state the loading indicator is visible
exactly when the upload area is hidden (setLoading keeps the pair mutually
exclusive), while the employee section is toggled independently and can be
visible together with the upload area. -/
theorem c6_amended_loading_upload_exclusive (evs : List Event) :
    (run evs).loadingVisible = !(run evs).uploadVisible :=
  loadInv_run evs

/-- Counterexample for C6 as stated: right after a successful upload both the
upload area and the employee section are visible, so two of the three views
show at once. -/
theorem c6_counterexample_two_views_visible :
    (run c6trace).uploadVisible = true ∧ (run c6trace).employeeVisible = true ∧
    (run c6trace).loadingVisible = false := by decide

/-- C7 amended: while the loading indicator is visible the upload area is
hidden, so no file can be submitted and no upload request issued during
loading; the generate button, however, is not disabled by loading, and
repeated clicks can overlap requests. -/
theorem c7_amended_no_upload_while_loading (evs : List Event) (file : Option String)
    (h : (run evs).loadingVisible = true) :
    (run evs).uploadVisible = false ∧
    step (Event.fileChosen file) (run evs) = run evs := by
  have hinv := loadInv_run evs
  unfold LoadInv at hinv
  rw [h] at hinv
  have hup : (run evs).uploadVisible = false := by
    cases hx : (run evs).uploadVisible
    · rfl
    · rw [hx] at hinv; exact absurd hinv (by decide)
  refine ⟨hup, ?_⟩
  simp [step, hup]

/-- Witness for C7: the state right after submitting a valid file is loading,
and a second file submission there does nothing. -/
theorem c7_witness :
    (run [Event.fileChosen (some "a.xlsx")]).loadingVisible = true ∧
    ((run [Event.fileChosen (some "a.xlsx")]).uploadVisible = false ∧
      step (Event.fileChosen (some "b.xlsx")) (run [Event.fileChosen (some "a.xlsx")]) =
        run [Event.fileChosen (some "a.xlsx")]) :=
  ⟨by decide,
    c7_amended_no_upload_while_loading [Event.fileChosen (some "a.xlsx")]
      (some "b.xlsx") (by decide)⟩

/-- Counterexample for C7 as stated: two generate clicks with no intervening
response leave two generate requests in flight, because the click listener
checks only the selected value and the button is never disabled while
loading. -/
theorem c7_counterexample_overlapping_requests :
    (run c7trace).generatesInFlight = ["Alice", "Alice"] ∧
    ¬ ((run c7trace).generatesInFlight.length + (run c7trace).uploadsInFlight ≤ 1) := by decide

/-- Every created object URL has been revoked. -/
def UrlInv (s : ClientState) : Prop :=
  createdIds s.effects = revokedIds s.effects

lemma effects_setLoadingV1 (l : Bool) (s : ClientState) :
    (setLoadingV1 l s).effects = s.effects := by
  cases l <;> simp [setLoadingV1]

lemma effects_handleFileV1 (f : Option String) (s : ClientState) :
    (handleFileV1 f s).effects = s.effects := by
  cases f with
  | none => rfl
  | some name =>
    cases hx : xlsxOk name <;>
      simp [handleFileV1, hx, showAlert, setLoadingV1]

lemma effects_uploadRespond (data : UploadBody) (s : ClientState) :
    (uploadRespond data s).effects = s.effects := by
  unfold uploadRespond
  cases data.error with
  | some e => simp [setLoadingV1, showAlert]
  | none =>
    cases data.employees with
    | none => simp [setLoadingV1, showAlert]
    | some es => simp [setLoadingV1, showAlert]

lemma effects_generateClickV1 (s : ClientState) :
    (generateClickV1 s).effects = s.effects := by
  unfold generateClickV1
  split
  · rfl
  · simp [setLoadingV1]

lemma effects_genRespond (employee : String) (r : GenResponse) (s : ClientState) :
    (genRespond employee r s).effects = s.effects ∨
    (genRespond employee r s).effects = s.effects ++
      [Effect.createURL s.nextUrl, Effect.download (downloadName employee) s.nextUrl,
       Effect.revokeURL s.nextUrl] := by
  cases hok : r.ok
  · left
    simp [genRespond, hok, showAlert, setLoadingV1]
  · right
    simp [genRespond, hok, showAlert, setLoadingV1]

lemma createdIds_append (l1 l2 : List Effect) :
    createdIds (l1 ++ l2) = createdIds l1 ++ createdIds l2 := by
  simp [createdIds]

lemma revokedIds_append (l1 l2 : List Effect) :
    revokedIds (l1 ++ l2) = revokedIds l1 ++ revokedIds l2 := by
  simp [revokedIds]

lemma createdIds_triple (u : Nat) (f : String) :
    createdIds [Effect.createURL u, Effect.download f u, Effect.revokeURL u] = [u] := rfl

lemma revokedIds_triple (u : Nat) (f : String) :
    revokedIds [Effect.createURL u, Effect.download f u, Effect.revokeURL u] = [u] := rfl

lemma urlInv_append_triple (effs : List Effect)
    (h : createdIds effs = revokedIds effs) (u : Nat) (f : String) :
    createdIds (effs ++ [Effect.createURL u, Effect.download f u, Effect.revokeURL u]) =
    revokedIds (effs ++ [Effect.createURL u, Effect.download f u, Effect.revokeURL u]) := by
  rw [createdIds_append, revokedIds_append, createdIds_triple, revokedIds_triple, h]

lemma urlInv_step (e : Event) (s : ClientState) (h : UrlInv s) : UrlInv (step e s) := by
  cases e with
  | fileChosen f =>
    simp only [step]
    split
    · unfold UrlInv
      rw [effects_handleFileV1]
      exact h
    · exact h
  | uploadResponse body =>
    simp only [step]
    split
    · exact h
    · unfold UrlInv
      rw [effects_uploadRespond]
      exact h
  | selectChange v =>
    simp only [step]
    split
    · exact h
    · exact h
  | generateClick =>
    simp only [step]
    split
    · unfold UrlInv
      rw [effects_generateClickV1]
      exact h
    · exact h
  | generateResponse employee r =>
    simp only [step]
    split
    · rcases effects_genRespond employee r
        { s with generatesInFlight := s.generatesInFlight.erase employee } with heq | heq
      · unfold UrlInv
        rw [heq]
        exact h
      · unfold UrlInv
        rw [heq]
        exact urlInv_append_triple _ h _ _
    · exact h

lemma urlInv_runFrom (evs : List Event) :
    ∀ s : ClientState, UrlInv s → UrlInv (runFrom s evs) := by
  induction evs with
  | nil => intro s h; exact h
  | cons e tail ih =>
    intro s h
    exact ih (step e s) (urlInv_step e s h)

lemma urlInv_run (evs : List Event) : UrlInv (run evs) :=
  urlInv_runFrom evs init rfl

/-- C8: a successful generation response triggers exactly one download, whose
object URL is created right before the anchor click and revoked right after
it, and in every reachable state the created object URLs are exactly the
revoked ones, so repeated downloads leak nothing. -/
theorem c8_single_download_and_revoke :
    (∀ (employee : String) (r : GenResponse) (s : ClientState), r.ok = true →
      (genRespond employee r s).effects = s.effects ++
        [Effect.createURL s.nextUrl, Effect.download (downloadName employee) s.nextUrl,
         Effect.revokeURL s.nextUrl] ∧
      downloadCount (genRespond employee r s).effects = downloadCount s.effects + 1) ∧
    (∀ evs : List Event, createdIds (run evs).effects = revokedIds (run evs).effects) := by
  constructor
  · intro employee r s hok
    have heff : (genRespond employee r s).effects = s.effects ++
        [Effect.createURL s.nextUrl, Effect.download (downloadName employee) s.nextUrl,
         Effect.revokeURL s.nextUrl] := by
      simp [genRespond, hok, showAlert, setLoadingV1]
    refine ⟨heff, ?_⟩
    rw [heff]
    simp [downloadCount, List.filter_append]
  · exact urlInv_run

/-- Witness for C8: the successful generation for Alice from the initial
state, and the full concrete flow c8trace. -/
theorem c8_witness :
    ((genRespond "Alice" ⟨true, none⟩ init).effects = init.effects ++
        [Effect.createURL init.nextUrl, Effect.download (downloadName "Alice") init.nextUrl,
         Effect.revokeURL init.nextUrl] ∧
      downloadCount (genRespond "Alice" ⟨true, none⟩ init).effects =
        downloadCount init.effects + 1) ∧
    createdIds (run c8trace).effects = revokedIds (run c8trace).effects :=
  ⟨c8_single_download_and_revoke.1 "Alice" ⟨true, none⟩ init rfl,
    c8_single_download_and_revoke.2 c8trace⟩

/-- C9 amended: variant 1 clears the file input whenever a loading cycle
completes, since every path of both response handlers runs its
setLoading(false); the setLoading of variant 2 never touches the file
input. -/
theorem c9_amended_file_input_reset :
    (∀ (data : UploadBody) (s : ClientState), (uploadRespond data s).fileInputValue = "") ∧
    (∀ (employee : String) (r : GenResponse) (s : ClientState),
      (genRespond employee r s).fileInputValue = "") ∧
    (∀ (l : Bool) (s : ClientState), (setLoadingV2 l s).fileInputValue = s.fileInputValue) := by
  refine ⟨?_, ?_, fun l s => rfl⟩
  · intro data s
    unfold uploadRespond
    cases data.error with
    | some e => simp [setLoadingV1, showAlert]
    | none =>
      cases data.employees with
      | none => simp [setLoadingV1, showAlert]
      | some es => simp [setLoadingV1, showAlert]
  · intro employee r s
    cases hok : r.ok <;> simp [genRespond, hok, setLoadingV1, showAlert]

/-- Counterexample for C9 as stated: in variant 2 a completed upload cycle
(the error path is shown) leaves the previously chosen file in the input. -/
theorem c9_counterexample_v2_keeps_file :
    (uploadRespondV2 ⟨some "Bad file", none⟩
      { init with fileInputValue := "roster.xlsx" }).fileInputValue = "roster.xlsx" ∧
    "roster.xlsx" ≠ "" := by decide

/-- C10: the restart action, modelled from the spec because no variant of
app.js contains one, applies in every state and returns the upload view with
the selection list reset to the single placeholder entry, the generate action
disabled, the file input cleared and the message area cleared; a second
restart changes nothing. -/
theorem c10_restart_resets (s : ClientState) :
    (restart s).uploadVisible = true ∧ (restart s).loadingVisible = false ∧
    (restart s).employeeVisible = false ∧ (restart s).options = [""] ∧
    (restart s).options.length = 1 ∧ (restart s).generateDisabled = true ∧
    (restart s).fileInputValue = "" ∧ (restart s).alert = none ∧
    (restart s).selectedValue = "" ∧ restart (restart s) = restart s := by
  refine ⟨rfl, rfl, rfl, rfl, rfl, rfl, rfl, rfl, rfl, rfl⟩
